import Mathlib

/-!
Verification development for the cdk-eventbridge-scheduler repository.

Part A embeds the schedule monitor function (the event reconciliation
engine): parsing of change notifications, extraction of the execution
timestamp from the schedule expression, construction of the DynamoDB
item and the `writeItem` update command, and the DynamoDB update
semantics applied to an abstract store.

Part B embeds the schedule lifecycle client (`createScheduledEvent`,
`updateScheduledEvent`, `deleteScheduledEvent`) as an interpreter over a
finite oracle of service responses, recording the commands sent and the
back-off waits performed.
-/

namespace Scheduler

/-! ## Part A: the event reconciliation engine (schedule monitor function) -/

/-- The `requestParameters` object inside a change notification's `detail`.
Every field may be absent, as the handler accesses them all with optional
chaining. -/
structure RequestParameters where
  name : Option String := none
  groupName : Option String := none
  scheduleExpression : Option String := none
  scheduleExpressionTimezone : Option String := none
deriving DecidableEq, Repr

/-- One parsed change notification (the `detail` object of a batch record).
`eventTime` is modelled as an integer timestamp: the handler sorts records
with the numeric comparator `a.eventTime - b.eventTime` and stores the value
as `updatedAt`. -/
structure EventRecord where
  eventName : String
  eventTime : Int
  requestParameters : Option RequestParameters := none
deriving DecidableEq, Repr

/-- A JavaScript runtime error escaping the handler. The only throwing site
in the reconciliation path is indexing `[1]` into a `null` regex match. -/
inductive JsError
  | typeError
deriving DecidableEq, Repr

/-- JavaScript template-literal rendering of a possibly-undefined string:
an absent value prints as the literal string `undefined`. -/
def jsShow : Option String → String
  | some s => s
  | none => "undefined"

/-- Characters matched by the regex fragment `[^)]+\)` starting at the head
of the list: the run of non-`)` characters before the first `)`. Returns
`none` when no closing parenthesis exists. -/
def captureBody : List Char → Option (List Char)
  | [] => none
  | c :: rest => if c = ')' then some [] else (captureBody rest).map (c :: ·)

/-- Attempt to match the full regex `at\(([^)]+)\)` at the current position:
the literal characters `a`, `t`, `(`, then a nonempty capture, then `)`. -/
def atHere (c : Char) (rest : List Char) : Option (List Char) :=
  match c, rest with
  | 'a', 't' :: '(' :: body =>
    match captureBody body with
    | some (x :: xs) => some (x :: xs)
    | _ => none
  | _, _ => none

/-- Leftmost-match semantics of `str.match(/at\(([^)]+)\)/)`: try the
pattern at each position, advancing one character on failure. -/
def scanAt : List Char → Option (List Char)
  | [] => none
  | c :: rest =>
    match atHere c rest with
    | some cap => some cap
    | none => scanAt rest

/-- `expr.match(/at\(([^)]+)\)/)` restricted to capture group 1; `none`
models a `null` match result. -/
def matchAtCapture (s : String) : Option String :=
  (scanAt s.data).map (fun cs => String.mk cs)

/-- The `dateTimeString` extraction of the handler:
`record.requestParameters?.scheduleExpression ? expr.match(/at\(([^)]+)\)/)[1] : undefined`.
When the expression is absent or falsy (empty), the result is `undefined`.
When the expression is present but the regex does not match, `match`
returns `null` and the index access `[1]` throws a `TypeError`. -/
def extractDateTime (rp : Option RequestParameters) : Except JsError (Option String) :=
  match rp.bind (·.scheduleExpression) with
  | none => Except.ok none
  | some e =>
    if e = "" then Except.ok none
    else
      match matchAtCapture e with
      | some cap => Except.ok (some cap)
      | none => Except.error JsError.typeError

/-- The item the handler builds for one record before calling `writeItem`. -/
structure Item where
  PK : String
  groupName : String
  executionTime : Option String := none
  ttl : Option Int := none
  deleted : Option Bool := none
  updatedAt : Int
deriving DecidableEq, Repr

/-- JavaScript truthiness of a possibly-absent string (falsy when absent or
empty). -/
def strTruthy : Option String → Bool
  | none => false
  | some s => !(s = "")

/-- JavaScript truthiness of a possibly-absent number (falsy when absent or
zero). -/
def intTruthy : Option Int → Bool
  | none => false
  | some v => !(v = 0)

/-- JavaScript truthiness of a possibly-absent boolean. -/
def boolTruthy : Option Bool → Bool
  | none => false
  | some b => b

/-- The item construction in the handler loop. `toIso` models the luxon
normalization `` `${DateTime.fromISO(dt, { zone }).toISO()}` `` as an
arbitrary function of the captured datetime string and the supplied
timezone; the development is parametric in it. `now` is `Date.now()` in
milliseconds. -/
def buildItem (toIso : String → Option String → String) (now : Int)
    (record : EventRecord) (dateTimeString : Option String) : Item :=
  let rp := record.requestParameters
  { PK := jsShow (rp.bind (·.groupName)) ++ "#" ++ jsShow (rp.bind (·.name))
    groupName := jsShow (rp.bind (·.groupName))
    executionTime :=
      if strTruthy dateTimeString then
        some (toIso (dateTimeString.getD "") (rp.bind (·.scheduleExpressionTimezone)))
      else none
    ttl := some (Int.fdiv now 1000 + 2592000)
    deleted := if record.eventName = "DeleteSchedule" then some true else none
    updatedAt := record.eventTime }

/-- DynamoDB attribute names used by the update expression. -/
inductive Attr
  | groupName
  | updatedAt
  | executionTime
  | ttl
  | deleted
deriving DecidableEq, Repr

/-- A DynamoDB attribute value. -/
inductive AttrVal
  | s (v : String)
  | n (v : Int)
  | b (v : Bool)
deriving DecidableEq, Repr

/-- The parameters `writeItem` submits to the store in its `UpdateCommand`:
the key, the `SET` clauses of the update expression (attribute together
with its bound value), and the `ConditionExpression` entry of the submitted
parameter object, when present. -/
structure WriteParams where
  key : String
  setClauses : List (Attr × AttrVal)
  condition : Option String
deriving DecidableEq, Repr

/-- The local `conditionExpression` variable that `writeItem` builds. -/
def conditionExpressionVar (onlyNewerRecords : Bool) : String :=
  if onlyNewerRecords then "attribute_not_exists(#updatedAt) OR #updatedAt < :updatedAt" else ""

/-- The parameter object `writeItem` passes to the `UpdateCommand`.
The update expression always sets `groupName` and `updatedAt`, and appends
`executionTime`, `ttl` and `deleted` clauses guarded by JavaScript
truthiness of the corresponding item fields. The `params` object in the
source contains `TableName`, `Key`, the attribute names/values and
`UpdateExpression` only: the `conditionExpression` variable is not included,
so the submitted parameters carry no condition. -/
def writeItemParams (item : Item) (onlyNewerRecords : Bool := true) : WriteParams :=
  { key := item.PK
    setClauses :=
      [(Attr.groupName, AttrVal.s item.groupName), (Attr.updatedAt, AttrVal.n item.updatedAt)]
      ++ (if strTruthy item.executionTime then
            [(Attr.executionTime, AttrVal.s (item.executionTime.getD ""))] else [])
      ++ (if intTruthy item.ttl then [(Attr.ttl, AttrVal.n (item.ttl.getD 0))] else [])
      ++ (if boolTruthy item.deleted then [(Attr.deleted, AttrVal.b (item.deleted.getD false))] else [])
    condition := none }

/-- A stored DynamoDB record; every attribute may be absent. -/
structure StoredRecord where
  groupName : Option String := none
  updatedAt : Option Int := none
  executionTime : Option String := none
  ttl : Option Int := none
  deleted : Option Bool := none
deriving DecidableEq, Repr

/-- The state store: a map from partition key to the stored record. -/
abbrev Store := String → Option StoredRecord

/-- The empty table. -/
def emptyStore : Store := fun _ => none

/-- Application of one `SET` clause to a record. -/
def setAttr (r : StoredRecord) : Attr × AttrVal → StoredRecord
  | (Attr.groupName, AttrVal.s v) => { r with groupName := some v }
  | (Attr.updatedAt, AttrVal.n v) => { r with updatedAt := some v }
  | (Attr.executionTime, AttrVal.s v) => { r with executionTime := some v }
  | (Attr.ttl, AttrVal.n v) => { r with ttl := some v }
  | (Attr.deleted, AttrVal.b v) => { r with deleted := some v }
  | (_, _) => r

/-- Value bound for an attribute in the clause list, if any. -/
def lookupClause (a : Attr) (cs : List (Attr × AttrVal)) : Option AttrVal :=
  (cs.find? (fun c => c.1 == a)).map (·.2)

/-- DynamoDB `UpdateItem` semantics for the parameter shapes this system
constructs. When the parameters carry no `ConditionExpression`, the update
is applied unconditionally. When they carry one, it is the single condition
this system ever builds (`attribute_not_exists(#updatedAt) OR #updatedAt <
:updatedAt`): the write applies only if the stored record is absent, has no
`updatedAt`, or has an `updatedAt` strictly less than the bound candidate
value. An update of a missing key creates the record from an empty base. -/
def applyUpdateCommand (s : Store) (p : WriteParams) : Store :=
  let old := s p.key
  let pass : Bool :=
    match p.condition with
    | none => true
    | some _ =>
      match old with
      | none => true
      | some r =>
        match r.updatedAt with
        | none => true
        | some u =>
          match lookupClause Attr.updatedAt p.setClauses with
          | some (AttrVal.n v) => decide (u < v)
          | _ => false
  if pass then
    fun k => if k = p.key then some (p.setClauses.foldl setAttr (old.getD {})) else s k
  else s

/-- The store effect of `writeItem`: submit the constructed `UpdateCommand`
parameters to the store. -/
def writeItem (s : Store) (item : Item) (onlyNewerRecords : Bool := true) : Store :=
  applyUpdateCommand s (writeItemParams item onlyNewerRecords)

/-- One iteration of the handler's record loop: extract the datetime string
(which may throw), build the item, and write it when there is a truthy
datetime string or the event is a `DeleteSchedule`; otherwise leave the
store untouched (the record is only logged). -/
def processRecord (toIso : String → Option String → String) (now : Int)
    (s : Store) (record : EventRecord) : Except JsError Store :=
  match extractDateTime record.requestParameters with
  | Except.error e => Except.error e
  | Except.ok dateTimeString =>
    if strTruthy dateTimeString || (record.eventName == "DeleteSchedule") then
      Except.ok (writeItem s (buildItem toIso now record dateTimeString) true)
    else
      Except.ok s

/-- Sequential application of a list of records; a thrown error aborts the
remainder of the batch (the rejected promise propagates out of the loop). -/
def applyRecords (toIso : String → Option String → String) (now : Int) :
    Store → List EventRecord → Except JsError Store
  | s, [] => Except.ok s
  | s, r :: rs =>
    match processRecord toIso now s r with
    | Except.error e => Except.error e
    | Except.ok s' => applyRecords toIso now s' rs

/-- The batch sort `eventRecords.sort((a, b) => a.eventTime - b.eventTime)`:
a stable sort ascending by `eventTime`. -/
def sortRecords (l : List EventRecord) : List EventRecord :=
  l.mergeSort (fun a b => decide (a.eventTime ≤ b.eventTime))

/-- The batch handler: sort the parsed records ascending by `eventTime`,
then process them in order. -/
def handler (toIso : String → Option String → String) (now : Int)
    (s : Store) (batch : List EventRecord) : Except JsError Store :=
  applyRecords toIso now s (sortRecords batch)

/-- Final record at key `k` after applying `recs` in the given order, or
`none` when the run threw. A stating device for concrete evaluations. -/
def finalAt (toIso : String → Option String → String) (now : Int)
    (s : Store) (recs : List EventRecord) (k : String) : Option (Option StoredRecord) :=
  (applyRecords toIso now s recs).toOption.map (fun st => st k)

/-- Dummy normalization used in concrete evaluations: the captured datetime
string itself. -/
def iso0 : String → Option String → String := fun d _ => d

/-! ## Part B: the schedule lifecycle client (seed function) -/

/-- Arguments of `createScheduledEvent` / `updateScheduledEvent` (the
payload is modelled in its serialized `JSON.stringify` form, which is all
the client ever inspects). -/
structure Args where
  name : String
  groupName : String
  payload : String
  targetArn : String
  roleArn : String
  timezone : String
  time : String
  maxRetries : Nat := 5
  dlqArn : Option String := none
deriving DecidableEq, Repr

/-- The field content of a `CreateScheduleCommand` / `UpdateScheduleCommand`
as constructed by the client. -/
structure CmdFields where
  name : String
  groupName : String
  roleArn : String
  targetArn : String
  deadLetterArn : Option String
  maximumEventAgeInSeconds : Nat
  maximumRetryAttempts : Nat
  input : String
  flexibleTimeWindowMode : String
  scheduleExpressionTimezone : String
  actionAfterCompletion : String
  scheduleExpression : String
deriving DecidableEq, Repr

/-- The command fields both operations build from their arguments. -/
def scheduleFields (a : Args) : CmdFields :=
  { name := a.name
    groupName := a.groupName
    roleArn := a.roleArn
    targetArn := a.targetArn
    deadLetterArn := a.dlqArn
    maximumEventAgeInSeconds := 900
    maximumRetryAttempts := a.maxRetries
    input := a.payload
    flexibleTimeWindowMode := "OFF"
    scheduleExpressionTimezone := a.timezone
    actionAfterCompletion := "DELETE"
    scheduleExpression := "at(" ++ a.time ++ ")" }

/-- A command sent to the scheduler service. -/
inductive Cmd
  | createSchedule (c : CmdFields)
  | updateSchedule (c : CmdFields)
  | deleteSchedule (name groupName : String)
deriving DecidableEq, Repr

/-- The service's reaction to one sent command: success, or an error whose
`name` the client inspects (`ConflictException`, `ResourceNotFoundException`,
`ThrottlingException`, or anything else). -/
inductive SendOutcome
  | ok
  | err (name : String)
deriving DecidableEq, Repr

/-- The `ScheduledEventResponse` result value of the client. -/
structure ScheduledEventResponse where
  success : Bool
  error : Option String := none
deriving DecidableEq, Repr

/-- Observable outcome of running one client operation against a finite
oracle of service responses: the returned result (`none` when the oracle
was exhausted before the operation finished), the commands sent, and the
back-off waits performed (in milliseconds). -/
structure RunResult where
  response : Option ScheduledEventResponse
  cmds : List Cmd
  waits : List Nat
deriving DecidableEq, Repr

/-- Which of the two mutually recursive operations is running. -/
inductive OpMode
  | create
  | update
deriving DecidableEq, Repr

/-- The command each mode sends. -/
def cmdOf : OpMode → Args → Cmd
  | OpMode.create, a => Cmd.createSchedule (scheduleFields a)
  | OpMode.update, a => Cmd.updateSchedule (scheduleFields a)

/-- The error name that triggers the conflict fallback in each mode:
`ConflictException` for create, `ResourceNotFoundException` for update. -/
def fallbackError : OpMode → String
  | OpMode.create => "ConflictException"
  | OpMode.update => "ResourceNotFoundException"

/-- The mode the conflict fallback switches to. -/
def otherMode : OpMode → OpMode
  | OpMode.create => OpMode.update
  | OpMode.update => OpMode.create

/-- Interpreter for `createScheduledEvent` (`m = create`) and
`updateScheduledEvent` (`m = update`), which are textually parallel in the
source and mutually recursive through their conflict fallbacks. Each sent
command consumes one oracle entry. On the mode's conflict error the client
recurses into the other operation passing `undefined` for `maxRetries` and
`retries` — so the fallback runs with the default `maxRetries = 5` and a
reset attempt counter. On `ThrottlingException` with `retries < 3` it waits
a fixed 5000 ms and retries the same operation with `retries + 1`. Every
other caught error yields a `success: false` result carrying the error. -/
def opRun (m : OpMode) (a : Args) (retries : Nat) (os : List SendOutcome) : RunResult :=
  match os with
  | [] => { response := none, cmds := [], waits := [] }
  | o :: rest =>
    match o with
    | SendOutcome.ok =>
      { response := some { success := true }, cmds := [cmdOf m a], waits := [] }
    | SendOutcome.err n =>
      if n = fallbackError m then
        let sub := opRun (otherMode m) { a with maxRetries := 5 } 0 rest
        { response := sub.response, cmds := cmdOf m a :: sub.cmds, waits := sub.waits }
      else if n = "ThrottlingException" ∧ retries < 3 then
        let sub := opRun m a (retries + 1) rest
        { response := sub.response, cmds := cmdOf m a :: sub.cmds, waits := 5000 :: sub.waits }
      else
        { response := some { success := false, error := some n }, cmds := [cmdOf m a], waits := [] }

/-- `createScheduledEvent` run against a response oracle. -/
def createScheduledEvent (a : Args) (retries : Nat) (os : List SendOutcome) : RunResult :=
  opRun OpMode.create a retries os

/-- `updateScheduledEvent` run against a response oracle. -/
def updateScheduledEvent (a : Args) (retries : Nat) (os : List SendOutcome) : RunResult :=
  opRun OpMode.update a retries os

/-- `deleteScheduledEvent`: a single attempt with no retry or fallback. -/
def deleteScheduledEvent (name groupName : String) (os : List SendOutcome) : RunResult :=
  match os with
  | [] => { response := none, cmds := [], waits := [] }
  | SendOutcome.ok :: _ =>
    { response := some { success := true }, cmds := [Cmd.deleteSchedule name groupName], waits := [] }
  | SendOutcome.err n :: _ =>
    { response := some { success := false, error := some n },
      cmds := [Cmd.deleteSchedule name groupName], waits := [] }

/-! ## Concrete fixtures for evaluations -/

/-- Request parameters of a create notification for schedule `A` in group
`g` firing at an `at(...)` literal instant. -/
def rpA : RequestParameters :=
  { name := some "A", groupName := some "g",
    scheduleExpression := some "at(2030-01-01T10:00:00)",
    scheduleExpressionTimezone := some "Europe/London" }

/-- Request parameters of an update notification for the same schedule with
a different fire time. -/
def rpB : RequestParameters :=
  { name := some "A", groupName := some "g",
    scheduleExpression := some "at(2030-01-02T10:00:00)",
    scheduleExpressionTimezone := some "Europe/London" }

/-- Request parameters of a delete notification for the same schedule
(delete notifications carry no schedule expression). -/
def rpDel : RequestParameters :=
  { name := some "A", groupName := some "g" }

/-- Create notification for `g#A` generated at time 1. -/
def n1 : EventRecord :=
  { eventName := "CreateSchedule", eventTime := 1, requestParameters := some rpA }

/-- Update notification for `g#A` generated at time 2. -/
def n2 : EventRecord :=
  { eventName := "UpdateSchedule", eventTime := 2, requestParameters := some rpB }

/-- Delete notification for `g#A` generated at time 1. -/
def d1 : EventRecord :=
  { eventName := "DeleteSchedule", eventTime := 1, requestParameters := some rpDel }

/-- Create notification for `g#A` generated at time 2. -/
def c2rec : EventRecord :=
  { eventName := "CreateSchedule", eventTime := 2, requestParameters := some rpA }

/-- A notification whose schedule expression is present but does not match
the literal `at(...)` form. -/
def badRec : EventRecord :=
  { eventName := "CreateSchedule", eventTime := 5,
    requestParameters := some { scheduleExpression := some "rate(5 minutes)" } }

/-- A delete notification with no `requestParameters` object at all. -/
def delNoParams (t : Int) : EventRecord :=
  { eventName := "DeleteSchedule", eventTime := t, requestParameters := none }

/-- A candidate item carrying an event-generation timestamp (1) older than
the one already stored (2). -/
def staleItem : Item :=
  { PK := "g#A", groupName := "g", executionTime := some "2030-01-01T10:00:00",
    ttl := some 100, deleted := none, updatedAt := 1 }

/-- The record already stored for `g#A`, last updated at event time 2. -/
def storedRec : StoredRecord :=
  { groupName := some "g", updatedAt := some 2,
    executionTime := some "2030-01-02T10:00:00", ttl := some 50, deleted := none }

/-- A store holding `storedRec` under key `g#A`. -/
def s0 : Store := fun k => if k = "g#A" then some storedRec else none

/-! ## Theorems for the claims -/

/-- Claim C1. The claim states that a candidate whose `updatedAt` is less
than or equal to the stored `updatedAt` is rejected by the store-level
conditional check, leaving the stored record unchanged. The code violates
this: `writeItem` builds the condition string into a local variable but the
submitted `UpdateCommand` parameters contain no `ConditionExpression`, so a
stale candidate (`updatedAt = 1` against a stored `updatedAt = 2`)
overwrites the record. The final conjunct shows that the very condition the
code builds would have rejected the write, had it been submitted. -/
theorem c1_stale_write_applied_despite_built_condition :
    (writeItemParams staleItem true).condition = none
    ∧ conditionExpressionVar true = "attribute_not_exists(#updatedAt) OR #updatedAt < :updatedAt"
    ∧ writeItem s0 staleItem true "g#A" =
        some { groupName := some "g", updatedAt := some 1,
               executionTime := some "2030-01-01T10:00:00", ttl := some 100, deleted := none }
    ∧ writeItem s0 staleItem true "g#A" ≠ s0 "g#A"
    ∧ applyUpdateCommand s0
        { writeItemParams staleItem true with condition := some (conditionExpressionVar true) }
        "g#A" = some storedRec := by
  refine ⟨rfl, rfl, by decide, by decide, by decide⟩

/-- Claim C2. The claim states that every permutation of a set of
notifications for one key yields, through the write rule, the same final
stored record as ascending generation-timestamp order. Because the
conditional check never reaches the store (no `ConditionExpression` in the
submitted parameters), the last-applied notification wins instead of the
greatest-timestamp one: applying `n2` (time 2) then `n1` (time 1) — the
cross-batch arrival order the sort cannot repair — leaves `updatedAt = 1`,
while ascending order leaves `updatedAt = 2`. -/
theorem c2_final_record_depends_on_application_order :
    finalAt iso0 0 emptyStore [n1, n2] "g#A" =
      some (some { groupName := some "g", updatedAt := some 2,
                   executionTime := some "2030-01-02T10:00:00",
                   ttl := some 2592000, deleted := none })
    ∧ finalAt iso0 0 emptyStore [n2, n1] "g#A" =
      some (some { groupName := some "g", updatedAt := some 1,
                   executionTime := some "2030-01-01T10:00:00",
                   ttl := some 2592000, deleted := none })
    ∧ finalAt iso0 0 emptyStore [n2, n1] "g#A" ≠ finalAt iso0 0 emptyStore [n1, n2] "g#A" := by
  refine ⟨by decide, by decide, by decide⟩

/-- Claim C4. The claim states that a non-delete notification whose
schedule expression is absent or unparsable yields no execution timestamp
and no store mutation, with the handler completing the batch normally. The
code violates this for a present-but-unmatched expression: `match` returns
`null` and the unguarded index `[1]` throws a `TypeError`, aborting the
whole batch. -/
theorem c4_unmatched_expression_throws_instead_of_skipping :
    extractDateTime badRec.requestParameters = Except.error JsError.typeError
    ∧ (∀ (toIso : String → Option String → String) (now : Int) (s : Store),
        processRecord toIso now s badRec = Except.error JsError.typeError)
    ∧ (∀ (toIso : String → Option String → String) (now : Int) (s : Store)
        (rest : List EventRecord),
        applyRecords toIso now s (badRec :: rest) = Except.error JsError.typeError) :=
  ⟨rfl, fun _ _ _ => rfl, fun _ _ _ _ => rfl⟩

/-- Claim C6. The claim states that applying the same notification twice
changes the stored state at most once. With the conditional check missing
from the submitted parameters, a duplicate delivery of `n1` (time 1)
arriving after `n2` (time 2) has already been applied overwrites the record
a second time, rolling `updatedAt` back to 1 and `executionTime` back to
the older value. -/
theorem c6_replayed_notification_changes_state_again :
    finalAt iso0 0 emptyStore [n1, n2] "g#A" =
      some (some { groupName := some "g", updatedAt := some 2,
                   executionTime := some "2030-01-02T10:00:00",
                   ttl := some 2592000, deleted := none })
    ∧ finalAt iso0 0 emptyStore [n1, n2, n1] "g#A" =
      some (some { groupName := some "g", updatedAt := some 1,
                   executionTime := some "2030-01-01T10:00:00",
                   ttl := some 2592000, deleted := none })
    ∧ finalAt iso0 0 emptyStore [n1, n2, n1] "g#A" ≠ finalAt iso0 0 emptyStore [n1, n2] "g#A" := by
  refine ⟨by decide, by decide, by decide⟩

/-- Claim C10. A `DeleteSchedule` notification with no `requestParameters`
is neither skipped nor an error: the key and group name are built by
template interpolation of `undefined`, so a tombstone record is written
under the literal key `undefined#undefined` with group name `undefined`. -/
theorem c10_delete_without_requestParameters_writes_undefined_key :
    ∀ (t : Int) (toIso : String → Option String → String),
      (processRecord toIso 0 emptyStore (delNoParams t)).toOption.map
          (fun s => s "undefined#undefined") =
        some (some { groupName := some "undefined", updatedAt := some t,
                     executionTime := none, ttl := some 2592000, deleted := some true }) :=
  fun _ _ => rfl

/-- Claim C5. The handler sorts the parsed batch ascending by event
generation timestamp before applying any record: the processed sequence is
pairwise ordered by `eventTime`, it is a permutation of the parsed batch,
and the handler applies exactly this sorted sequence. -/
theorem c5_batch_sorted_ascending_by_eventTime :
    ∀ (batch : List EventRecord),
      List.Pairwise (fun a b : EventRecord => a.eventTime ≤ b.eventTime) (sortRecords batch)
      ∧ (sortRecords batch).Perm batch
      ∧ ∀ (toIso : String → Option String → String) (now : Int) (s : Store),
          handler toIso now s batch = applyRecords toIso now s (sortRecords batch) := by
  intro batch
  refine ⟨?_, List.mergeSort_perm batch _, fun _ _ _ => rfl⟩
  have h := @List.sorted_mergeSort EventRecord
    (fun a b : EventRecord => decide (a.eventTime ≤ b.eventTime))
    (fun a b c hab hbc => by
      simp only [decide_eq_true_eq] at *
      exact le_trans hab hbc)
    (fun a b => by
      simp only [Bool.or_eq_true, decide_eq_true_eq]
      exact le_total a.eventTime b.eventTime)
    batch
  exact h.imp (fun hab => by simpa using hab)

/-- Lifecycle-client arguments with a non-default retry budget
(`maxRetries = 2`). -/
def a2 : Args :=
  { name := "S1", groupName := "g", payload := "p", targetArn := "t",
    roleArn := "r", timezone := "Europe/London", time := "2030-01-01T00:00:00",
    maxRetries := 2 }

/-- Claim C7, counterexample. The claim states that create on an existing
name behaves identically to calling update with the same arguments,
including the same `maxRetries`. With `maxRetries = 2`, the fallback update
issued after the conflict carries `MaximumRetryAttempts = 5` (the source
passes `undefined` for `maxRetries`, so the default applies), while a
direct update with the same arguments carries `MaximumRetryAttempts = 2`:
the observable service interactions differ. -/
theorem c7_conflict_fallback_drops_callers_maxRetries :
    (createScheduledEvent a2 0 [SendOutcome.err "ConflictException", SendOutcome.ok]).cmds =
      [Cmd.createSchedule (scheduleFields a2),
       Cmd.updateSchedule (scheduleFields { a2 with maxRetries := 5 })]
    ∧ (updateScheduledEvent a2 0 [SendOutcome.ok]).cmds = [Cmd.updateSchedule (scheduleFields a2)]
    ∧ (scheduleFields { a2 with maxRetries := 5 }).maximumRetryAttempts = 5
    ∧ (scheduleFields a2).maximumRetryAttempts = 2
    ∧ (createScheduledEvent a2 0 [SendOutcome.err "ConflictException", SendOutcome.ok]).cmds ≠
        Cmd.createSchedule (scheduleFields a2) :: (updateScheduledEvent a2 0 [SendOutcome.ok]).cmds := by
  refine ⟨by decide, by decide, rfl, rfl, by decide⟩

/-- Claim C7, amended. On already-exists, create falls back to update with
the same name, group, payload, target, role, timezone, fire time and
dead-letter target, but with the default retry budget (`maxRetries = 5`)
and a reset attempt counter instead of the caller's values; symmetrically,
update on not-found falls back to create the same way. The conflict is not
surfaced: the returned result is exactly the fallback's result. -/
theorem c7_conflict_fallback_runs_other_op_with_default_budget :
    ∀ (a : Args) (retries : Nat) (rest : List SendOutcome),
      createScheduledEvent a retries (SendOutcome.err "ConflictException" :: rest) =
        { response := (updateScheduledEvent { a with maxRetries := 5 } 0 rest).response,
          cmds := Cmd.createSchedule (scheduleFields a) ::
                    (updateScheduledEvent { a with maxRetries := 5 } 0 rest).cmds,
          waits := (updateScheduledEvent { a with maxRetries := 5 } 0 rest).waits }
      ∧ updateScheduledEvent a retries (SendOutcome.err "ResourceNotFoundException" :: rest) =
        { response := (createScheduledEvent { a with maxRetries := 5 } 0 rest).response,
          cmds := Cmd.updateSchedule (scheduleFields a) ::
                    (createScheduledEvent { a with maxRetries := 5 } 0 rest).cmds,
          waits := (createScheduledEvent { a with maxRetries := 5 } 0 rest).waits } :=
  fun _ _ _ => ⟨rfl, rfl⟩

/-- Claim C8. A rate-limited (`ThrottlingException`) response makes the
operation wait a fixed 5000 ms and retry the same operation with an
incremented attempt counter, as long as fewer than 3 retries have been
used; at the fourth throttled response of one call the budget is exhausted
and a structured failure carrying the cause is returned; any other
unrecognized error is likewise converted into a structured failure result
rather than thrown. The same policy holds for update. -/
theorem c8_rate_limit_backoff_and_retry_policy :
    (∀ (a : Args) (retries : Nat) (rest : List SendOutcome), retries < 3 →
      createScheduledEvent a retries (SendOutcome.err "ThrottlingException" :: rest) =
        { response := (createScheduledEvent a (retries + 1) rest).response,
          cmds := Cmd.createSchedule (scheduleFields a) ::
                    (createScheduledEvent a (retries + 1) rest).cmds,
          waits := 5000 :: (createScheduledEvent a (retries + 1) rest).waits })
    ∧ (∀ (a : Args) (retries : Nat) (rest : List SendOutcome), ¬ retries < 3 →
      createScheduledEvent a retries (SendOutcome.err "ThrottlingException" :: rest) =
        { response := some { success := false, error := some "ThrottlingException" },
          cmds := [Cmd.createSchedule (scheduleFields a)], waits := [] })
    ∧ (∀ (a : Args) (rest : List SendOutcome),
      createScheduledEvent a 0
          (SendOutcome.err "ThrottlingException" :: SendOutcome.err "ThrottlingException" ::
           SendOutcome.err "ThrottlingException" :: SendOutcome.err "ThrottlingException" :: rest) =
        { response := some { success := false, error := some "ThrottlingException" },
          cmds := [Cmd.createSchedule (scheduleFields a), Cmd.createSchedule (scheduleFields a),
                   Cmd.createSchedule (scheduleFields a), Cmd.createSchedule (scheduleFields a)],
          waits := [5000, 5000, 5000] })
    ∧ (∀ (a : Args) (retries : Nat) (rest : List SendOutcome) (n : String),
        n ≠ "ConflictException" → n ≠ "ThrottlingException" →
      createScheduledEvent a retries (SendOutcome.err n :: rest) =
        { response := some { success := false, error := some n },
          cmds := [Cmd.createSchedule (scheduleFields a)], waits := [] })
    ∧ (∀ (a : Args) (retries : Nat) (rest : List SendOutcome), retries < 3 →
      updateScheduledEvent a retries (SendOutcome.err "ThrottlingException" :: rest) =
        { response := (updateScheduledEvent a (retries + 1) rest).response,
          cmds := Cmd.updateSchedule (scheduleFields a) ::
                    (updateScheduledEvent a (retries + 1) rest).cmds,
          waits := 5000 :: (updateScheduledEvent a (retries + 1) rest).waits })
    ∧ (∀ (a : Args) (retries : Nat) (rest : List SendOutcome), ¬ retries < 3 →
      updateScheduledEvent a retries (SendOutcome.err "ThrottlingException" :: rest) =
        { response := some { success := false, error := some "ThrottlingException" },
          cmds := [Cmd.updateSchedule (scheduleFields a)], waits := [] })
    ∧ (∀ (a : Args) (retries : Nat) (rest : List SendOutcome) (n : String),
        n ≠ "ResourceNotFoundException" → n ≠ "ThrottlingException" →
      updateScheduledEvent a retries (SendOutcome.err n :: rest) =
        { response := some { success := false, error := some n },
          cmds := [Cmd.updateSchedule (scheduleFields a)], waits := [] }) := by
  refine ⟨?_, ?_, ?_, ?_, ?_, ?_, ?_⟩
  · intro a retries rest h
    simp only [createScheduledEvent, opRun, cmdOf, fallbackError]
    rw [if_neg (by simp), if_pos ⟨trivial, h⟩]
  · intro a retries rest h
    simp only [createScheduledEvent, opRun, cmdOf, fallbackError]
    rw [if_neg (by simp), if_neg (by simpa using h)]
  · intro a rest
    rfl
  · intro a retries rest n h1 h2
    simp only [createScheduledEvent, opRun, cmdOf, fallbackError]
    rw [if_neg h1, if_neg (fun hc => h2 hc.1)]
  · intro a retries rest h
    simp only [updateScheduledEvent, opRun, cmdOf, fallbackError]
    rw [if_neg (by simp), if_pos ⟨trivial, h⟩]
  · intro a retries rest h
    simp only [updateScheduledEvent, opRun, cmdOf, fallbackError]
    rw [if_neg (by simp), if_neg (by simpa using h)]
  · intro a retries rest n h1 h2
    simp only [updateScheduledEvent, opRun, cmdOf, fallbackError]
    rw [if_neg h1, if_neg (fun hc => h2 hc.1)]

/-- Witness for claim C8: a concrete run that is rate-limited twice and
then succeeds, with two 5000 ms back-off waits and three identical create
commands sent. -/
theorem c8_rate_limit_backoff_and_retry_policy_witness :
    createScheduledEvent a2 0
        [SendOutcome.err "ThrottlingException", SendOutcome.err "ThrottlingException",
         SendOutcome.ok] =
      { response := some { success := true, error := none },
        cmds := [Cmd.createSchedule (scheduleFields a2), Cmd.createSchedule (scheduleFields a2),
                 Cmd.createSchedule (scheduleFields a2)],
        waits := [5000, 5000] } := by
  have h := c8_rate_limit_backoff_and_retry_policy
  exact (h.1 a2 0 [SendOutcome.err "ThrottlingException", SendOutcome.ok] (by decide)).trans
    (by decide)

/-- The `deleted` attribute after applying the update expression's clauses:
set to `true` exactly when the candidate's `deleted` field is truthy,
otherwise left at the base record's value. -/
lemma deleted_after_clauses (it : Item) (r : StoredRecord) :
    ((writeItemParams it true).setClauses.foldl setAttr r).deleted =
      if boolTruthy it.deleted = true then some true else r.deleted := by
  rcases hd : it.deleted with _ | b
  · by_cases h1 : strTruthy it.executionTime = true <;>
      by_cases h2 : intTruthy it.ttl = true <;>
        simp [writeItemParams, boolTruthy, h1, h2, hd, setAttr]
  · cases b <;>
      (by_cases h1 : strTruthy it.executionTime = true <;>
        by_cases h2 : intTruthy it.ttl = true <;>
          simp [writeItemParams, boolTruthy, h1, h2, hd, setAttr])

/-- After one `writeItem`, the stored `deleted` flag at a key is `true` iff
it already was, or the written candidate targets that key with a truthy
`deleted`. -/
lemma writeItem_deleted (s : Store) (it : Item) (k : String) :
    ((writeItem s it true) k).bind (fun r => r.deleted) = some true ↔
      ((s k).bind (fun r => r.deleted) = some true ∨ (it.PK = k ∧ boolTruthy it.deleted = true)) := by
  have hc : (writeItemParams it true).condition = none := rfl
  have hkey : (writeItemParams it true).key = it.PK := rfl
  by_cases hk : k = it.PK
  · subst hk
    simp [writeItem, applyUpdateCommand, hc, hkey, deleted_after_clauses]
    rcases hb : boolTruthy it.deleted with _ | _
    · cases hs : s it.PK <;> simp [hs, hb]
    · simp [hb]
  · have hk2 : ¬ it.PK = k := fun h => hk h.symm
    simp [writeItem, applyUpdateCommand, hc, hkey, hk, hk2]

/-- Tombstone tracking over any sequence of applied writes. -/
lemma foldl_writeItem_deleted :
    ∀ (items : List Item) (s : Store) (k : String),
      ((items.foldl (fun st it => writeItem st it true) s) k).bind (fun r => r.deleted) = some true ↔
        ((s k).bind (fun r => r.deleted) = some true ∨
          ∃ it ∈ items, it.PK = k ∧ boolTruthy it.deleted = true) := by
  intro items
  induction items with
  | nil => intro s k; simp
  | cons it rest ih =>
    intro s k
    simp only [List.foldl_cons]
    rw [ih, writeItem_deleted]
    simp only [List.mem_cons, exists_eq_or_imp]
    tauto

/-- Claim C3, counterexample. The claim states the stored `deleted` flag is
absent when a create/update with a later generation timestamp than the
delete is the most recently applied event. Applying the delete (time 1) and
then the create (time 2) — already in ascending order — leaves a record
whose `updatedAt` is the create's timestamp but whose `deleted` flag is
still `true`: the update expression only ever `SET`s attributes and never
removes the tombstone. -/
theorem c3_later_create_leaves_tombstone :
    finalAt iso0 0 emptyStore [d1, c2rec] "g#A" =
      some (some { groupName := some "g", updatedAt := some 2,
                   executionTime := some "2030-01-01T10:00:00",
                   ttl := some 2592000, deleted := some true }) := by
  decide

/-- Claim C3, amended: the stored `deleted` flag for a key is `true`
exactly when it was already `true` initially or at least one applied write
for that key carried a truthy `deleted` field — and a write carries one
exactly when its notification's event name is `DeleteSchedule`. In
particular a delete with a later generation timestamp than any
create/update yields `deleted = true` regardless of delivery order, but the
flag is sticky: a later create/update does not remove it. -/
theorem c3_tombstone_sticky_and_tracks_applied_deletes :
    (∀ (items : List Item) (s : Store) (k : String),
      ((items.foldl (fun st it => writeItem st it true) s) k).bind (fun r => r.deleted) = some true ↔
        ((s k).bind (fun r => r.deleted) = some true ∨
          ∃ it ∈ items, it.PK = k ∧ boolTruthy it.deleted = true))
    ∧ (∀ (toIso : String → Option String → String) (now : Int) (r : EventRecord)
        (dt : Option String),
        boolTruthy (buildItem toIso now r dt).deleted = true ↔ r.eventName = "DeleteSchedule") := by
  refine ⟨foldl_writeItem_deleted, ?_⟩
  intro toIso now r dt
  by_cases h : r.eventName = "DeleteSchedule" <;> simp [buildItem, boolTruthy, h]

/-- Projection of a stored record's attribute as a DynamoDB value. -/
def getField : Attr → StoredRecord → Option AttrVal
  | Attr.groupName, r => r.groupName.map AttrVal.s
  | Attr.updatedAt, r => r.updatedAt.map AttrVal.n
  | Attr.executionTime, r => r.executionTime.map AttrVal.s
  | Attr.ttl, r => r.ttl.map AttrVal.n
  | Attr.deleted, r => r.deleted.map AttrVal.b

/-- The attributes named by the update expression's `SET` clauses:
`groupName` and `updatedAt` always, the other three exactly when the
candidate's field is truthy. -/
lemma mem_clauses_fst (it : Item) (b : Bool) (a : Attr) :
    a ∈ (writeItemParams it b).setClauses.map Prod.fst ↔
      (a = Attr.groupName ∨ a = Attr.updatedAt
        ∨ (a = Attr.executionTime ∧ strTruthy it.executionTime = true)
        ∨ (a = Attr.ttl ∧ intTruthy it.ttl = true)
        ∨ (a = Attr.deleted ∧ boolTruthy it.deleted = true)) := by
  by_cases h1 : strTruthy it.executionTime = true <;>
    by_cases h2 : intTruthy it.ttl = true <;>
      by_cases h3 : boolTruthy it.deleted = true <;>
        simp [writeItemParams, h1, h2, h3]

/-- A `SET` clause never removes an attribute. -/
lemma getField_isSome_setAttr (r : StoredRecord) (c : Attr × AttrVal) (a : Attr)
    (h : (getField a r).isSome = true) : (getField a (setAttr r c)).isSome = true := by
  rcases c with ⟨attr, v⟩
  cases attr <;> cases v <;> cases a <;> simp_all [setAttr, getField]

/-- A whole clause list never removes an attribute. -/
lemma getField_isSome_foldl :
    ∀ (cs : List (Attr × AttrVal)) (r : StoredRecord) (a : Attr),
      (getField a r).isSome = true → (getField a (cs.foldl setAttr r)).isSome = true := by
  intro cs
  induction cs with
  | nil => intro r a h; simpa using h
  | cons c rest ih => intro r a h; exact ih _ _ (getField_isSome_setAttr r c a h)

/-- A clause for a different attribute leaves a field untouched. -/
lemma getField_setAttr_ne (r : StoredRecord) (attr : Attr) (v : AttrVal) (a : Attr)
    (h : attr ≠ a) : getField a (setAttr r (attr, v)) = getField a r := by
  cases attr <;> cases v <;> cases a <;> simp_all [setAttr, getField]

/-- A clause list that never names an attribute leaves it untouched. -/
lemma getField_foldl_not_mem :
    ∀ (cs : List (Attr × AttrVal)) (r : StoredRecord) (a : Attr),
      a ∉ cs.map Prod.fst → getField a (cs.foldl setAttr r) = getField a r := by
  intro cs
  induction cs with
  | nil => intro r a _; rfl
  | cons c rest ih =>
    intro r a h
    simp only [List.map_cons, List.mem_cons] at h
    push_neg at h
    rcases c with ⟨attr, v⟩
    rw [List.foldl_cons, ih _ _ h.2, getField_setAttr_ne _ _ _ _ (fun he => h.1 he.symm)]

/-- A truthy possibly-absent string is present. -/
lemma strTruthy_isSome (o : Option String) (h : strTruthy o = true) : o.isSome = true := by
  cases o <;> simp_all [strTruthy]

/-- A truthy possibly-absent number is present. -/
lemma intTruthy_isSome (o : Option Int) (h : intTruthy o = true) : o.isSome = true := by
  cases o <;> simp_all [intTruthy]

/-- A truthy possibly-absent boolean is present. -/
lemma boolTruthy_isSome (o : Option Bool) (h : boolTruthy o = true) : o.isSome = true := by
  cases o <;> simp_all [boolTruthy]

/-- Claim C9. Every applied write modifies only the attributes present in
the candidate item: the update expression always sets `groupName` and
`updatedAt`; it names `executionTime`, `ttl` or `deleted` only when the
candidate carries that field; no write ever removes an existing attribute;
and in particular a candidate without `executionTime` (such as the one
built for a `DeleteSchedule` notification without a schedule expression)
leaves the stored `executionTime` exactly as it was. -/
theorem c9_writes_touch_only_candidate_attributes :
    (∀ (it : Item) (b : Bool),
        Attr.groupName ∈ (writeItemParams it b).setClauses.map Prod.fst
        ∧ Attr.updatedAt ∈ (writeItemParams it b).setClauses.map Prod.fst)
    ∧ (∀ (it : Item) (b : Bool),
        (Attr.executionTime ∈ (writeItemParams it b).setClauses.map Prod.fst →
          it.executionTime.isSome = true)
        ∧ (Attr.ttl ∈ (writeItemParams it b).setClauses.map Prod.fst → it.ttl.isSome = true)
        ∧ (Attr.deleted ∈ (writeItemParams it b).setClauses.map Prod.fst →
          it.deleted.isSome = true))
    ∧ (∀ (s : Store) (it : Item) (b : Bool) (k : String) (a : Attr),
        ((s k).bind (getField a)).isSome = true →
        (((writeItem s it b) k).bind (getField a)).isSome = true)
    ∧ (∀ (s : Store) (it : Item) (b : Bool) (k : String),
        it.executionTime = none →
        ((writeItem s it b) k).bind (getField Attr.executionTime) =
          (s k).bind (getField Attr.executionTime)) := by
  refine ⟨?_, ?_, ?_, ?_⟩
  · intro it b
    exact ⟨(mem_clauses_fst it b _).2 (Or.inl rfl),
           (mem_clauses_fst it b _).2 (Or.inr (Or.inl rfl))⟩
  · intro it b
    refine ⟨?_, ?_, ?_⟩
    · intro hmem
      have h := (mem_clauses_fst it b Attr.executionTime).1 hmem
      simp at h
      exact strTruthy_isSome _ h
    · intro hmem
      have h := (mem_clauses_fst it b Attr.ttl).1 hmem
      simp at h
      exact intTruthy_isSome _ h
    · intro hmem
      have h := (mem_clauses_fst it b Attr.deleted).1 hmem
      simp at h
      exact boolTruthy_isSome _ h
  · intro s it b k a h
    have hc : (writeItemParams it b).condition = none := rfl
    have hkey : (writeItemParams it b).key = it.PK := rfl
    by_cases hk : k = it.PK
    · subst hk
      cases hs : s it.PK with
      | none => rw [hs] at h; simp at h
      | some r =>
        rw [hs] at h
        simp only [Option.some_bind] at h
        simp [writeItem, applyUpdateCommand, hc, hkey, hs]
        exact getField_isSome_foldl _ _ _ h
    · simp [writeItem, applyUpdateCommand, hc, hkey, hk]
      exact h
  · intro s it b k hnone
    have hc : (writeItemParams it b).condition = none := rfl
    have hkey : (writeItemParams it b).key = it.PK := rfl
    have hmem : Attr.executionTime ∉ (writeItemParams it b).setClauses.map Prod.fst := by
      intro hm
      have h := (mem_clauses_fst it b Attr.executionTime).1 hm
      simp [strTruthy, hnone] at h
    by_cases hk : k = it.PK
    · subst hk
      simp [writeItem, applyUpdateCommand, hc, hkey]
      rw [getField_foldl_not_mem _ _ _ hmem]
      cases hs : s it.PK <;> simp [hs, getField]
    · simp [writeItem, applyUpdateCommand, hc, hkey, hk]

/-- The item the handler builds for a `DeleteSchedule` notification without
a schedule expression: a tombstone carrying no `executionTime`. -/
def delItem : Item :=
  { PK := "g#A", groupName := "g", executionTime := none,
    ttl := some 2592000, deleted := some true, updatedAt := 3 }

/-- Witness for claim C9: writing a tombstone without `executionTime` over
the stored record keeps the previously stored `executionTime` attribute
present and unchanged. -/
theorem c9_writes_touch_only_candidate_attributes_witness :
    ((s0 "g#A").bind (getField Attr.executionTime)).isSome = true
    ∧ (((writeItem s0 delItem true) "g#A").bind (getField Attr.executionTime)).isSome = true
    ∧ ((writeItem s0 delItem true) "g#A").bind (getField Attr.executionTime) =
        (s0 "g#A").bind (getField Attr.executionTime) := by
  have h := c9_writes_touch_only_candidate_attributes
  exact ⟨by decide,
    h.2.2.1 s0 delItem true "g#A" Attr.executionTime (by decide),
    h.2.2.2 s0 delItem true "g#A" (by decide)⟩

end Scheduler
